import Mathlib

/-!
Shallow embedding of the job-orchestration pipeline of the caesium-clt
batch image-compression tool (src/main.rs, src/options.rs).

Paths are modelled as lists of components of an absolute path; the ambient
filesystem and the external collaborators (codec, metadata probes, EXIF
reader) are modelled as an explicit environment record, and the
side-effecting calls a job performs are collected into an explicit event
trace.  A job that panics (an `unwrap` on a failed step) is modelled by
returning `none` in place of a `CompressionResult`.
-/

namespace CaesiumClt

/-- Components of an absolute filesystem path: `/base/folder/test.jpg`
is `["base", "folder", "test.jpg"]`. -/
abbrev FsPath := List String

/-- Rendering of a path as the Rust `Path::display` would print it. -/
def displayPath (p : FsPath) : String :=
  "/" ++ String.intercalate "/" p

/-- Rust `Path::parent`: `None` at the root, otherwise drop the last
component. -/
def pathParent (p : FsPath) : Option FsPath :=
  match p with
  | [] => none
  | _ => some p.dropLast

/-- Split a file name into Rust's `file_stem` and `extension`: the split is
at the last dot, except that a dot in first position (hidden files) does
not start an extension and a name without a dot has no extension. -/
def fileStemExtCore (cs : List Char) : List Char × Option (List Char) :=
  let afterRev := cs.reverse.takeWhile (fun c => c ≠ '.')
  if afterRev.length = cs.length then (cs, none)
  else if cs.length - afterRev.length - 1 = 0 then (cs, none)
  else (cs.take (cs.length - afterRev.length - 1), some afterRev.reverse)

/-- Rust `Path::file_stem` on the embedded path. -/
def pathFileStem (p : FsPath) : Option String :=
  p.getLast?.map (fun n => String.mk (fileStemExtCore n.toList).1)

/-- Rust `Path::extension` on the embedded path. -/
def pathExtension (p : FsPath) : Option String :=
  p.getLast?.bind (fun n => ((fileStemExtCore n.toList).2).map String.mk)

/-- `OverwritePolicy` from src/options.rs (the variant called `Never` in
options.rs is matched as `None` in src/main.rs; the spec calls it `None`). -/
inductive OverwritePolicy
  | All
  | None
  | Bigger
deriving DecidableEq, Repr

/-- `CompressionStatus` from src/main.rs. -/
inductive CompressionStatus
  | Success
  | Skipped
  | Error
deriving DecidableEq, Repr

/-- `CompressionResult` from src/main.rs. -/
structure CompressionResult where
  original_path : String
  output_path : String
  original_size : Nat
  compressed_size : Nat
  status : CompressionStatus
  message : String
deriving DecidableEq, Repr

/-- The `Resize` argument group from src/options.rs. -/
structure ResizeArgs where
  width : Option Nat
  height : Option Nat
  long_edge : Option Nat
  short_edge : Option Nat
deriving DecidableEq, Repr

/-- The slice of `CommandLineArgs` (src/options.rs) that the job pipeline
reads. -/
structure JobArgs where
  quality : Option Nat
  exif : Bool
  keep_dates : Bool
  suffix : Option String
  keep_structure : Bool
  dry_run : Bool
  overwrite : OverwritePolicy
  png_opt_level : Nat
  zopfli : Bool
  resize : ResizeArgs
  same_folder_as_input : Bool
  output : Option FsPath
deriving DecidableEq, Repr

/-- `needs_resize` as computed in `main` (src/main.rs lines 49-52). -/
def needsResize (r : ResizeArgs) : Bool :=
  r.width.isSome || r.height.isSome || r.long_edge.isSome || r.short_edge.isSome

/-- The external codec's parameter record (`CSParameters` of the caesium
crate), restricted to the fields this program writes; the crate
initializes the resize dimensions unset (zero). -/
structure CSParameters where
  jpeg_quality : Nat
  png_quality : Nat
  webp_quality : Nat
  gif_quality : Nat
  keep_metadata : Bool
  png_optimization_level : Nat
  png_force_zopfli : Bool
  width : Nat
  height : Nat
deriving DecidableEq, Repr

/-- `CSParameters::new()` of the external crate: defaults, with the resize
dimensions unset (zero). -/
def CSParameters.new : CSParameters :=
  { jpeg_quality := 80, png_quality := 80, webp_quality := 80,
    gif_quality := 80, keep_metadata := false,
    png_optimization_level := 3, png_force_zopfli := false,
    width := 0, height := 0 }

/-- Result of the input file's metadata read: byte length and the two
timestamps `FileTime::from_last_modification_time` /
`FileTime::from_last_access_time` expose. -/
structure FileMeta where
  len : Nat
  mtime : Int
  atime : Int
deriving DecidableEq, Repr

/-- Outcome of the EXIF read in `get_real_resolution` (src/main.rs lines
346-352): the container read may fail (orientation stays 1), the
orientation field may be absent (early return with the natural
resolution), or the field yields `get_uint(0)` (its failure defaulting
to 1). -/
inductive ExifRead
  | containerErr
  | noField
  | fieldUint (v : Option Nat)
deriving DecidableEq, Repr

/-- Observable side-effecting calls a job performs.
`setFileTimes p a m` records the call `filetime::set_file_times(p, a, m)`,
whose first time argument is the access time the file receives and whose
second is the modification time. -/
inductive Event
  | createDirAll (p : FsPath)
  | codecCall
  | createFile (p : FsPath)
  | writeAll (p : FsPath)
  | setFileTimes (p : FsPath) (atime : Int) (mtime : Int)
deriving DecidableEq, Repr

/-- The ambient filesystem and external collaborators, per job. -/
structure JobEnv where
  metadata : Option FileMeta
  canonicalize : FsPath → Option FsPath
  createDirAllOk : FsPath → Bool
  mimeType : Option String
  imageSize : Option (Nat × Nat)
  fileOpenOk : Bool
  exifRead : ExifRead
  readFileOk : Bool
  compress : CSParameters → Except String Nat
  pathExists : FsPath → Bool
  createFileOk : FsPath → Bool
  writeAllOk : Bool
  setTimesOk : Bool

/-- `get_real_resolution` (src/main.rs lines 336-360): read the natural
dimensions, read the EXIF orientation only for `image/jpeg` when metadata
is kept, and swap the dimensions for orientations 5-8.  `none` models the
propagated `Err`. -/
def get_real_resolution (env : JobEnv) (mime_type : Option String)
    (keep_metadata : Bool) : Option (Nat × Nat) :=
  match env.imageSize with
  | none => none
  | some resolution =>
    let mime := mime_type.getD ""
    let applyOrient (orientation : Nat) : Nat × Nat :=
      if 5 ≤ orientation ∧ orientation ≤ 8 then (resolution.2, resolution.1)
      else resolution
    if mime = "image/jpeg" && keep_metadata then
      if env.fileOpenOk then
        match env.exifRead with
        | .containerErr => some (applyOrient 1)
        | .noField => some resolution
        | .fieldUint v => some (applyOrient (v.getD 1))
      else none
    else some (applyOrient 1)

/-- `build_resize_parameters` (src/main.rs lines 259-288): pick the single
resize dimension from the requested mode and the orientation-corrected
resolution.  `none` models the propagated `Err`. -/
def build_resize_parameters (args : JobArgs) (parameters : CSParameters)
    (env : JobEnv) (mime_type : Option String) : Option CSParameters :=
  match get_real_resolution env mime_type args.exif with
  | none => none
  | some (width, height) =>
    if args.resize.width.isSome then
      some { parameters with width := args.resize.width.getD 0 }
    else if args.resize.height.isSome then
      some { parameters with height := args.resize.height.getD 0 }
    else if args.resize.long_edge.isSome then
      let long_edge := args.resize.long_edge.getD 0
      if width > height then some { parameters with width := long_edge }
      else some { parameters with height := long_edge }
    else if args.resize.short_edge.isSome then
      let short_edge := args.resize.short_edge.getD 0
      if width < height then some { parameters with width := short_edge }
      else some { parameters with height := short_edge }
    else some parameters

/-- `build_compression_parameters` (src/main.rs lines 236-257).  The Rust
calls `.unwrap()` on `build_resize_parameters`; `none` here models that
panic. -/
def build_compression_parameters (args : JobArgs) (env : JobEnv)
    (needs_resize : Bool) : Option CSParameters :=
  let quality := args.quality.getD 80
  let parameters : CSParameters :=
    { jpeg_quality := quality, png_quality := quality,
      webp_quality := quality, gif_quality := quality,
      keep_metadata := args.exif,
      png_optimization_level := args.png_opt_level,
      png_force_zopfli := args.zopfli,
      width := CSParameters.new.width, height := CSParameters.new.height }
  if needs_resize then
    build_resize_parameters args parameters env env.mimeType
  else
    some parameters

/-- `compute_output_full_path` (src/main.rs lines 290-323), returning the
optional output path together with the `fs::create_dir_all` calls it
issues. -/
def compute_output_full_path (env : JobEnv) (output_directory : FsPath)
    (input_file_path : FsPath) (base_directory : FsPath)
    (keep_structure : Bool) (suffix : String) : Option FsPath × List Event :=
  let extension := (pathExtension input_file_path).getD ""
  let base_name := (pathFileStem input_file_path).getD ""
  let output_file_name :=
    base_name ++ suffix ++ (if extension ≠ "" then "." ++ extension else "")
  if keep_structure then
    match pathParent input_file_path with
    | none => (none, [])
    | some rawParent =>
      match env.canonicalize rawParent with
      | none => (none, [])
      | some parent =>
        if base_directory.isPrefixOf parent then
          let output_path_prefix := parent.drop base_directory.length
          let full_output_directory := output_directory ++ output_path_prefix
          if env.createDirAllOk full_output_directory then
            (some (full_output_directory ++ [output_file_name]),
             [Event.createDirAll full_output_directory])
          else (none, [Event.createDirAll full_output_directory])
        else (none, [])
  else
    if env.createDirAllOk output_directory then
      (some (output_directory ++ [output_file_name]),
       [Event.createDirAll output_directory])
    else (none, [Event.createDirAll output_directory])

/-- One job of the `par_iter().map(...)` closure in `main` (src/main.rs
lines 66-190), with the environment explicit.  The first component is
`none` exactly when the Rust closure panics (the two `unwrap()` calls on
`build_resize_parameters` and `read_file_to_vec`); otherwise it is the
job's one `CompressionResult`.  The second component is the trace of
side-effecting calls. -/
def executeJob (args : JobArgs) (env : JobEnv) (input_file : FsPath)
    (base_path : FsPath) : Option CompressionResult × List Event :=
  let r0 : CompressionResult :=
    { original_path := displayPath input_file, output_path := "",
      original_size := 0, compressed_size := 0,
      status := CompressionStatus.Error, message := "" }
  match env.metadata with
  | none => (some { r0 with message := "Error reading file metadata" }, [])
  | some meta =>
    let original_file_size := meta.len
    let r1 := { r0 with original_size := original_file_size }
    match (if args.same_folder_as_input then pathParent input_file else args.output) with
    | none =>
      (some { r1 with message :=
        if args.same_folder_as_input then "Error getting parent directory"
        else "Error getting output directory" }, [])
    | some output_directory =>
      match compute_output_full_path env output_directory input_file
          base_path args.keep_structure (args.suffix.getD "") with
      | (none, evts) =>
        (some { r1 with message := "Error computing output path" }, evts)
      | (some output_full_path, evts) =>
        if args.dry_run then
          (some { r1 with status := CompressionStatus.Success }, evts)
        else
          match build_compression_parameters args env (needsResize args.resize) with
          | none => (none, evts)
          | some compression_parameters =>
            if env.readFileOk then
              let evts := evts ++ [Event.codecCall]
              match env.compress compression_parameters with
              | Except.error e =>
                (some { r1 with message := "Error compressing file: " ++ e }, evts)
              | Except.ok output_file_size =>
                let r2 := { r1 with output_path := displayPath output_full_path }
                let doSkip : Bool :=
                  env.pathExists output_full_path &&
                    (match args.overwrite with
                     | OverwritePolicy.None => true
                     | OverwritePolicy.Bigger =>
                       decide (output_file_size ≥ original_file_size)
                     | OverwritePolicy.All => false)
                if doSkip then
                  let rSkip :=
                    { r2 with
                      status := CompressionStatus.Skipped,
                      compressed_size := original_file_size,
                      message := "File already exists, skipped due overwrite policy" }
                  (some rSkip, evts)
                else
                  if env.createFileOk output_full_path then
                    let evts := evts ++ [Event.createFile output_full_path]
                    if env.writeAllOk then
                      let evts := evts ++ [Event.writeAll output_full_path]
                      let rSuccess :=
                        { r2 with
                          status := CompressionStatus.Success,
                          compressed_size := output_file_size }
                      if args.keep_dates then
                        let last_modification_time := meta.mtime
                        let last_access_time := meta.atime
                        if env.setTimesOk then
                          (some rSuccess,
                           evts ++ [Event.setFileTimes output_full_path
                                      last_modification_time last_access_time])
                        else
                          (some { r2 with message := "Error preserving file dates" }, evts)
                      else
                        (some rSuccess, evts)
                    else
                      (some { r2 with message := "Error writing output file" }, evts)
                  else
                    (some { r2 with message := "Error creating output file" }, evts)
            else (none, evts)

/-- `get_parallelism_count` (src/main.rs lines 228-234). -/
def get_parallelism_count (requested_threads : Nat) (available_threads : Nat) : Nat :=
  if requested_threads > 0 then min available_threads requested_threads
  else available_threads

/-- Totals accumulated by the loop in `write_recap_message` (src/main.rs
lines 196-212). -/
structure RecapTotals where
  total_original_size : Nat
  total_compressed_size : Nat
  total_files : Nat
  total_success : Nat
  total_skipped : Nat
  total_errors : Nat
deriving DecidableEq, Repr

/-- One iteration of the accumulation loop of `write_recap_message`. -/
def recapStep (acc : RecapTotals) (result : CompressionResult) : RecapTotals :=
  { acc with
    total_original_size := acc.total_original_size + result.original_size,
    total_compressed_size := acc.total_compressed_size + result.compressed_size,
    total_skipped := acc.total_skipped +
      (if result.status = CompressionStatus.Skipped then 1 else 0),
    total_errors := acc.total_errors +
      (if result.status = CompressionStatus.Error then 1 else 0),
    total_success := acc.total_success +
      (if result.status = CompressionStatus.Skipped ∨
          result.status = CompressionStatus.Error then 0 else 1) }

/-- The accumulation loop of `write_recap_message`. -/
def recapTotals (compression_results : List CompressionResult) : RecapTotals :=
  compression_results.foldl recapStep
    { total_original_size := 0, total_compressed_size := 0,
      total_files := compression_results.length,
      total_success := 0, total_skipped := 0, total_errors := 0 }

/-- `total_saved` (src/main.rs line 214): the plain f64 subtraction,
modelled exactly over the integers (no clamping at zero appears in the
code). -/
def total_saved (compression_results : List CompressionResult) : Int :=
  ((recapTotals compression_results).total_original_size : Int) -
    ((recapTotals compression_results).total_compressed_size : Int)

/-- `total_saved_percent` (src/main.rs line 215): the unguarded f64
division `total_saved / total_original_size * 100.0`, modelled exactly
over the rationals; `none` stands for the non-finite value (NaN or
infinity) that f64 produces when the denominator is zero. -/
def total_saved_percent (compression_results : List CompressionResult) : Option Rat :=
  let o := (recapTotals compression_results).total_original_size
  if o = 0 then none
  else some ((total_saved compression_results : Rat) / (o : Rat) * 100)

/-- One `println!` of `write_recap_message`, carrying the values printed
(the `human_bytes` rendering is external formatting). -/
inductive RecapLine
  | totalFiles (n : Nat)
  | totalSuccess (n : Nat)
  | totalSkipped (n : Nat)
  | totalErrors (n : Nat)
  | totalOriginalSize (n : Nat)
  | totalCompressedSize (n : Nat)
  | totalSaved (saved : Int) (percent : Option Rat)
deriving DecidableEq, Repr

/-- `write_recap_message` (src/main.rs lines 196-226): the sequence of
lines printed at the given verbosity. -/
def write_recap_message (compression_results : List CompressionResult)
    (verbose : Nat) : List RecapLine :=
  let t := recapTotals compression_results
  if verbose > 0 then
    [RecapLine.totalFiles t.total_files,
     RecapLine.totalSuccess t.total_success,
     RecapLine.totalSkipped t.total_skipped,
     RecapLine.totalErrors t.total_errors,
     RecapLine.totalOriginalSize t.total_original_size,
     RecapLine.totalCompressedSize t.total_compressed_size,
     RecapLine.totalSaved (total_saved compression_results)
       (total_saved_percent compression_results)]
  else []

/-! Concrete environments and argument records used by the example-level
theorems below. -/

/-- A fully healthy environment: metadata reads give a 1000-byte file with
modification time 100 and access time 200, canonicalization is the
identity, every directory creation, file write and timestamp update
succeeds, the codec returns 500 bytes, and no output path pre-exists. -/
def happyEnv : JobEnv :=
  { metadata := some { len := 1000, mtime := 100, atime := 200 },
    canonicalize := fun p => some p,
    createDirAllOk := fun _ => true,
    mimeType := some "image/jpeg",
    imageSize := some (800, 600),
    fileOpenOk := true,
    exifRead := ExifRead.noField,
    readFileOk := true,
    compress := fun _ => Except.ok 500,
    pathExists := fun _ => false,
    createFileOk := fun _ => true,
    writeAllOk := true,
    setTimesOk := true }

/-- Plain arguments: output folder `/output`, no suffix, no resize, no
dry run, overwrite policy All. -/
def baseArgs : JobArgs :=
  { quality := some 80, exif := false, keep_dates := false,
    suffix := none, keep_structure := false, dry_run := false,
    overwrite := OverwritePolicy.All, png_opt_level := 3, zopfli := false,
    resize := { width := none, height := none, long_edge := none, short_edge := none },
    same_folder_as_input := false, output := some ["output"] }

/-! Helper lemmas shared by several claims. -/

/-- The only side-effecting calls `compute_output_full_path` issues are
directory creations. -/
theorem compute_output_full_path_events (env : JobEnv) (od input base : FsPath)
    (ks : Bool) (sfx : String) :
    ∀ e ∈ (compute_output_full_path env od input base ks sfx).2,
      ∃ p, e = Event.createDirAll p := by
  intro e he
  unfold compute_output_full_path at he
  repeat' split at he
  all_goals simp_all [apply_ite Prod.snd]

/-- The recap loop accumulates the sum of the original sizes. -/
theorem foldl_recapStep_original (rs : List CompressionResult) (acc : RecapTotals) :
    (rs.foldl recapStep acc).total_original_size =
      acc.total_original_size + (rs.map (fun r => r.original_size)).sum := by
  induction rs generalizing acc with
  | nil => simp
  | cons r rs ih => simp [recapStep, ih, Nat.add_assoc]

/-- The recap loop accumulates the sum of the compressed sizes. -/
theorem foldl_recapStep_compressed (rs : List CompressionResult) (acc : RecapTotals) :
    (rs.foldl recapStep acc).total_compressed_size =
      acc.total_compressed_size + (rs.map (fun r => r.compressed_size)).sum := by
  induction rs generalizing acc with
  | nil => simp
  | cons r rs ih => simp [recapStep, ih, Nat.add_assoc]

/-! Claim C9. -/

/-- Claim C9: for every requested thread count and available hardware
parallelism, the resolved worker-pool size is `available` when
`requested = 0` and `min requested available` when `requested > 0`. -/
theorem C9_worker_pool_sizing (requested available : Nat) :
    (requested = 0 → get_parallelism_count requested available = available) ∧
    (requested > 0 →
      get_parallelism_count requested available = min requested available) := by
  constructor
  · intro h
    simp [get_parallelism_count, h]
  · intro h
    simp [get_parallelism_count, h, Nat.min_comm]

/-- Witness for C9 at requested 0 and 3 with 8 available threads. -/
theorem C9_worker_pool_sizing_witness :
    get_parallelism_count 0 8 = 8 ∧ get_parallelism_count 3 8 = min 3 8 :=
  ⟨(C9_worker_pool_sizing 0 8).1 rfl, (C9_worker_pool_sizing 3 8).2 (by decide)⟩

/-! Claim C4. -/

/-- A successful job whose written size exceeds its original size; such a
result is reachable, e.g. under overwrite policy All when the codec output
is larger than the input. -/
def growResult : CompressionResult :=
  { original_path := "/base/a.png", output_path := "/output/a.png",
    original_size := 1, compressed_size := 2,
    status := CompressionStatus.Success, message := "" }

/-- Claim C4 counterexample: the reporter does not clamp total-saved at
zero (with one result of original size 1 and written size 2 it reports
-1, not max(0, 1-2) = 0), and with total original size 0 the percent
computation is the unguarded division by zero (non-finite, modelled
`none`), not 0. -/
theorem C4_counterexample :
    total_saved [growResult] ≠ max 0 ((1 : Int) - 2) ∧
    total_saved_percent [] ≠ some 0 := by
  constructor <;> decide

/-- Claim C4 as amended: total-saved is the plain difference
totalOriginal - totalWritten (no clamping, possibly negative);
percent-saved is saved / totalOriginal * 100 when totalOriginal > 0 and
the non-finite result of an unguarded division by zero when
totalOriginal = 0; an empty result sequence still yields the summary
lines without any crash. -/
theorem C4_reporter_totals (rs : List CompressionResult) :
    total_saved rs =
      ((rs.map (fun r => r.original_size)).sum : Int) -
        ((rs.map (fun r => r.compressed_size)).sum : Int) ∧
    ((recapTotals rs).total_original_size > 0 →
      total_saved_percent rs =
        some ((total_saved rs : Rat) /
          ((recapTotals rs).total_original_size : Rat) * 100)) ∧
    ((recapTotals rs).total_original_size = 0 → total_saved_percent rs = none) ∧
    write_recap_message [] 0 = [] ∧
    write_recap_message [] 1 =
      [RecapLine.totalFiles 0, RecapLine.totalSuccess 0,
       RecapLine.totalSkipped 0, RecapLine.totalErrors 0,
       RecapLine.totalOriginalSize 0, RecapLine.totalCompressedSize 0,
       RecapLine.totalSaved 0 none] := by
  refine ⟨?_, ?_, ?_, by decide, by decide⟩
  · unfold total_saved recapTotals
    rw [foldl_recapStep_original, foldl_recapStep_compressed]
    simp [Function.comp_def]
  · intro h
    unfold total_saved_percent
    rw [if_neg (by omega)]
  · intro h
    unfold total_saved_percent
    rw [if_pos h]

/-- Witness for C4 at the one-result list with original size 1 and
written size 2. -/
theorem C4_reporter_totals_witness :
    (recapTotals [growResult]).total_original_size > 0 ∧
    total_saved_percent [growResult] =
      some ((total_saved [growResult] : Rat) /
        ((recapTotals [growResult]).total_original_size : Rat) * 100) :=
  ⟨by decide, (C4_reporter_totals [growResult]).2.1 (by decide)⟩

/-! Claim C8. -/

/-- A skipped result, as produced by the overwrite gate. -/
def skippedResult : CompressionResult :=
  { original_path := "/base/b.jpg", output_path := "/output/b.jpg",
    original_size := 10, compressed_size := 10,
    status := CompressionStatus.Skipped,
    message := "File already exists, skipped due overwrite policy" }

/-- Claim C8 (code bug): with one Skipped result, verbosity levels 2 and 3
emit exactly the same seven summary lines as level 1 - the reporter never
emits the promised per-job Skipped/Error/Success lines, although the
VerboseLevel documentation in src/options.rs says level 2 shows skipped
and error messages and level 3 prints all. -/
theorem C8_verbosity_tiers_add_nothing :
    write_recap_message [skippedResult] 2 = write_recap_message [skippedResult] 1 ∧
    write_recap_message [skippedResult] 3 = write_recap_message [skippedResult] 1 ∧
    (write_recap_message [skippedResult] 2).length = 7 := by
  refine ⟨rfl, rfl, rfl⟩

/-! Claim C1. -/

/-- Arguments requesting a resize to width 1000. -/
def resizeWidthArgs : JobArgs :=
  { baseArgs with
    resize := { width := some 1000, height := none, long_edge := none,
                short_edge := none } }

/-- An environment where the image header cannot be read. -/
def corruptHeaderEnv : JobEnv := { happyEnv with imageSize := none }

/-- An environment where the input file's bytes cannot be read. -/
def unreadableFileEnv : JobEnv := { happyEnv with readFileOk := false }

/-- Claim C1 (code bug): a failing resize-metadata read (here the image
dimensions cannot be read while a resize width is requested) does not
yield a CompressionResult with status Error - the job closure calls
`.unwrap()` on `build_resize_parameters` (src/main.rs line 252, marked
TODO) and panics; likewise `.unwrap()` on `read_file_to_vec` (src/main.rs
line 126, marked TODO) panics when the input bytes cannot be read.  A
panic inside the rayon map unwinds and aborts the run, so the job
produces no result at all (modelled as `none`). -/
theorem C1_job_panics_instead_of_error :
    (executeJob resizeWidthArgs corruptHeaderEnv ["base", "img.jpg"] ["base"]).1 =
      none ∧
    (executeJob baseArgs unreadableFileEnv ["base", "img.jpg"] ["base"]).1 =
      none := by
  constructor <;> decide

/-! Claim C2. -/

/-- Arguments with dry-run active. -/
def dryRunArgs : JobArgs := { baseArgs with dry_run := true }

/-- Claim C2 counterexample: in dry-run mode the job still issues the
directory-creation call `fs::create_dir_all("/output")`, because output
path computation (which performs the creation) runs before the dry-run
check (src/main.rs lines 104-121, 317, 320); a missing output directory
is therefore created on disk, refuting "no file or directory is created
or modified".  The result itself is Success with the compressed size left
at its default 0. -/
theorem C2_counterexample :
    executeJob dryRunArgs happyEnv ["base", "img.jpg"] ["base"] =
      (some { original_path := "/base/img.jpg", output_path := "",
              original_size := 1000, compressed_size := 0,
              status := CompressionStatus.Success, message := "" },
       [Event.createDirAll ["output"]]) := by decide

/-- Claim C2 as amended: when dry-run is active, every job whose metadata
read, output-directory choice and output-path computation succeed reports
Success immediately, with the compressed size left at its default 0 and
the output path field left unset, without invoking the codec and without
creating or writing any file or touching timestamps; the only
side-effecting calls are the idempotent directory creations that
output-path computation itself issues, so the output directory is created
if absent. -/
theorem C2_dry_run_reports_success (args : JobArgs) (env : JobEnv)
    (input base od outP : FsPath) (meta : FileMeta) (evts : List Event)
    (hdry : args.dry_run = true)
    (hmeta : env.metadata = some meta)
    (hod : (if args.same_folder_as_input then pathParent input else args.output) =
      some od)
    (hpath : compute_output_full_path env od input base args.keep_structure
      (args.suffix.getD "") = (some outP, evts)) :
    executeJob args env input base =
      (some { original_path := displayPath input, output_path := "",
              original_size := meta.len, compressed_size := 0,
              status := CompressionStatus.Success, message := "" },
       evts) ∧
    ∀ e ∈ evts, ∃ p, e = Event.createDirAll p := by
  constructor
  · simp [executeJob, hmeta, hod, hpath, hdry]
  · intro e he
    have h := compute_output_full_path_events env od input base
      args.keep_structure (args.suffix.getD "") e
    rw [hpath] at h
    exact h he

/-- Witness for C2 as amended, at the dry-run arguments and the healthy
environment. -/
theorem C2_dry_run_reports_success_witness :
    executeJob dryRunArgs happyEnv ["base", "img.jpg"] ["base"] =
      (some { original_path := "/base/img.jpg", output_path := "",
              original_size := 1000, compressed_size := 0,
              status := CompressionStatus.Success, message := "" },
       [Event.createDirAll ["output"]]) ∧
    ∀ e ∈ [Event.createDirAll (["output"] : FsPath)],
      ∃ p, e = Event.createDirAll p := by
  have h := C2_dry_run_reports_success dryRunArgs happyEnv ["base", "img.jpg"]
    ["base"] ["output"] ["output", "img.jpg"]
    { len := 1000, mtime := 100, atime := 200 }
    [Event.createDirAll ["output"]] rfl rfl rfl (by decide)
  exact ⟨h.1, h.2⟩

/-! Claim C3. -/

/-- Arguments requesting date preservation. -/
def keepDatesArgs : JobArgs := { baseArgs with keep_dates := true }

/-- Claim C3 (code bug): with keep-dates requested and an input whose
modification time (100) differs from its access time (200), the job ends
with the call `filetime::set_file_times(output, atime := 100,
mtime := 200)` - recorded here as the final `Event.setFileTimes` whose
access-time argument is the input's modification time and whose
modification-time argument is the input's access time.  `main` passes
`(last_modification_time, last_access_time)` into
`preserve_dates(output, input_atime, input_mtime)` (src/main.rs lines
173-185 and 332-334), so the two timestamps are swapped on the output
file, not preserved. -/
theorem C3_preserve_dates_swaps_timestamps :
    executeJob keepDatesArgs happyEnv ["base", "img.jpg"] ["base"] =
      (some { original_path := "/base/img.jpg",
              output_path := "/output/img.jpg",
              original_size := 1000, compressed_size := 500,
              status := CompressionStatus.Success, message := "" },
       [Event.createDirAll ["output"], Event.codecCall,
        Event.createFile ["output", "img.jpg"],
        Event.writeAll ["output", "img.jpg"],
        Event.setFileTimes ["output", "img.jpg"] 100 200]) := by decide

/-! Claim C5. -/

/-- Claim C5: for every job that reaches the overwrite gate (metadata,
output directory, output path, parameters, file read and codec all
succeed, no dry run) and whose resolved output path already exists:
policy None skips regardless of sizes; policy Bigger skips exactly when
the candidate compressed size is at least the original size; policy All
always proceeds; and every skip yields status Skipped with the reported
size field set to the original size (not the candidate size) and no file
creation or write. -/
theorem C5_overwrite_gate (args : JobArgs) (env : JobEnv)
    (input base od outP : FsPath) (meta : FileMeta) (evts0 : List Event)
    (params : CSParameters) (c : Nat)
    (hmeta : env.metadata = some meta)
    (hod : (if args.same_folder_as_input then pathParent input else args.output) =
      some od)
    (hpath : compute_output_full_path env od input base args.keep_structure
      (args.suffix.getD "") = (some outP, evts0))
    (hdry : args.dry_run = false)
    (hparams : build_compression_parameters args env (needsResize args.resize) =
      some params)
    (hread : env.readFileOk = true)
    (hcomp : env.compress params = Except.ok c)
    (hexists : env.pathExists outP = true) :
    ((args.overwrite = OverwritePolicy.None ∨
        (args.overwrite = OverwritePolicy.Bigger ∧ c ≥ meta.len)) →
      executeJob args env input base =
        (some { original_path := displayPath input,
                output_path := displayPath outP,
                original_size := meta.len, compressed_size := meta.len,
                status := CompressionStatus.Skipped,
                message := "File already exists, skipped due overwrite policy" },
         evts0 ++ [Event.codecCall]) ∧
      ∀ e ∈ evts0 ++ [Event.codecCall],
        (∀ p, e ≠ Event.createFile p) ∧ (∀ p, e ≠ Event.writeAll p)) ∧
    ((args.overwrite = OverwritePolicy.All ∨
        (args.overwrite = OverwritePolicy.Bigger ∧ c < meta.len)) →
      ∀ r evts, executeJob args env input base = (some r, evts) →
        r.status ≠ CompressionStatus.Skipped) := by
  constructor
  · intro hpol
    have hskip : executeJob args env input base =
        (some { original_path := displayPath input,
                output_path := displayPath outP,
                original_size := meta.len, compressed_size := meta.len,
                status := CompressionStatus.Skipped,
                message := "File already exists, skipped due overwrite policy" },
         evts0 ++ [Event.codecCall]) := by
      rcases hpol with hN | ⟨hB, hge⟩
      · simp [executeJob, hmeta, hod, hpath, hdry, hparams, hread, hcomp,
          hexists, hN]
      · simp [executeJob, hmeta, hod, hpath, hdry, hparams, hread, hcomp,
          hexists, hB, hge]
    refine ⟨hskip, ?_⟩
    intro e he
    rcases List.mem_append.mp he with h1 | h2
    · have h := compute_output_full_path_events env od input base
        args.keep_structure (args.suffix.getD "") e
      rw [hpath] at h
      obtain ⟨p, hp⟩ := h h1
      subst hp
      constructor <;> intro q <;> simp
    · simp only [List.mem_singleton] at h2
      subst h2
      constructor <;> intro q <;> simp
  · intro hpol r evts h
    rcases hpol with hA | ⟨hB, hlt⟩
    · simp [executeJob, hmeta, hod, hpath, hdry, hparams, hread, hcomp,
        hexists, hA] at h
      repeat' split at h
      all_goals simp_all
      all_goals (rw [← h.1]; simp)
    · have hge : (decide (c ≥ meta.len)) = false :=
        decide_eq_false (Nat.not_le.mpr hlt)
      simp [executeJob, hmeta, hod, hpath, hdry, hparams, hread, hcomp,
        hexists, hB, hge] at h
      repeat' split at h
      all_goals simp_all
      all_goals (rw [← h.1]; simp)

/-- Output path already exists; the codec still answers 500 bytes for a
1000-byte input. -/
def outputExistsEnv : JobEnv := { happyEnv with pathExists := fun _ => true }

/-- Arguments with overwrite policy None. -/
def overwriteNoneArgs : JobArgs := { baseArgs with overwrite := OverwritePolicy.None }

/-- The codec parameters the pipeline builds from `baseArgs` (quality 80,
no resize). -/
def baseParams : CSParameters :=
  { jpeg_quality := 80, png_quality := 80, webp_quality := 80,
    gif_quality := 80, keep_metadata := false,
    png_optimization_level := 3, png_force_zopfli := false,
    width := 0, height := 0 }

/-- Witness for C5: with policy None and an existing output, the concrete
job is skipped with the original size reported. -/
theorem C5_overwrite_gate_witness :
    executeJob overwriteNoneArgs outputExistsEnv ["base", "img.jpg"] ["base"] =
      (some { original_path := "/base/img.jpg",
              output_path := "/output/img.jpg",
              original_size := 1000, compressed_size := 1000,
              status := CompressionStatus.Skipped,
              message := "File already exists, skipped due overwrite policy" },
       [Event.createDirAll ["output"]] ++ [Event.codecCall]) :=
  ((C5_overwrite_gate overwriteNoneArgs outputExistsEnv ["base", "img.jpg"]
      ["base"] ["output"] ["output", "img.jpg"]
      { len := 1000, mtime := 100, atime := 200 }
      [Event.createDirAll ["output"]] baseParams 500
      rfl rfl (by decide) rfl (by decide) rfl rfl rfl).1 (Or.inl rfl)).1

/-! Claim C6. -/

/-- Claim C6: with readable natural dimensions (w, h): when the EXIF
orientation is consulted (JPEG mime with EXIF preservation and a readable
container) a value in 5-8 swaps width and height, any other value leaves
them unchanged, and an absent orientation tag, an unreadable EXIF
container, a non-JPEG mime or disabled EXIF preservation also leave them
unchanged.  On the orientation-corrected dimensions (w', h'): Width mode
assigns only the width parameter, Height mode only the height, LongEdge
assigns its value to the width when w' > h' and to the height otherwise,
ShortEdge to the width when w' < h' and to the height otherwise; whenever
a resize mode is present, exactly one of the two resize parameters is
assigned. -/
theorem C6_resize_planner (args : JobArgs) (p : CSParameters) (env : JobEnv)
    (mime : Option String) (w h : Nat)
    (hsize : env.imageSize = some (w, h)) :
    ((∀ o, mime.getD "" = "image/jpeg" → args.exif = true →
        env.fileOpenOk = true → env.exifRead = ExifRead.fieldUint (some o) →
        get_real_resolution env mime args.exif =
          some (if 5 ≤ o ∧ o ≤ 8 then (h, w) else (w, h))) ∧
     (mime.getD "" = "image/jpeg" → args.exif = true → env.fileOpenOk = true →
        (env.exifRead = ExifRead.noField ∨
         env.exifRead = ExifRead.containerErr) →
        get_real_resolution env mime args.exif = some (w, h)) ∧
     (¬ (mime.getD "" = "image/jpeg" ∧ args.exif = true) →
        get_real_resolution env mime args.exif = some (w, h))) ∧
    (∀ w' h', get_real_resolution env mime args.exif = some (w', h') →
      (∀ v, args.resize.width = some v →
        build_resize_parameters args p env mime = some { p with width := v }) ∧
      (∀ v, args.resize.width = none → args.resize.height = some v →
        build_resize_parameters args p env mime = some { p with height := v }) ∧
      (∀ v, args.resize.width = none → args.resize.height = none →
        args.resize.long_edge = some v →
        build_resize_parameters args p env mime =
          (if w' > h' then some { p with width := v }
           else some { p with height := v })) ∧
      (∀ v, args.resize.width = none → args.resize.height = none →
        args.resize.long_edge = none → args.resize.short_edge = some v →
        build_resize_parameters args p env mime =
          (if w' < h' then some { p with width := v }
           else some { p with height := v })) ∧
      (needsResize args.resize = true →
        ∀ q, build_resize_parameters args p env mime = some q →
          (∃ v, q = { p with width := v }) ∨
          (∃ v, q = { p with height := v }))) := by
  refine ⟨⟨?_, ?_, ?_⟩, ?_⟩
  · intro o hm hx hopen hex
    simp [get_real_resolution, hsize, hm, hx, hopen, hex]
  · intro hm hx hopen hex
    rcases hex with hex | hex <;>
      simp [get_real_resolution, hsize, hm, hx, hopen, hex]
  · intro hcontra
    by_cases hm : mime.getD "" = "image/jpeg"
    · have hx : args.exif = false := by
        cases hxv : args.exif
        · rfl
        · exact absurd ⟨hm, hxv⟩ hcontra
      simp [get_real_resolution, hsize, hm, hx]
    · simp [get_real_resolution, hsize, hm]
  · intro w' h' hres
    refine ⟨?_, ?_, ?_, ?_, ?_⟩
    · intro v hw
      simp [build_resize_parameters, hres, hw]
    · intro v hw hh
      simp [build_resize_parameters, hres, hw, hh]
    · intro v hw hh hle
      simp only [build_resize_parameters, hres, hw, hh, hle, Option.isSome_none,
        Option.isSome_some, Option.getD_some, Bool.false_eq_true, if_false,
        if_true]
    · intro v hw hh hle hse
      simp only [build_resize_parameters, hres, hw, hh, hle, hse,
        Option.isSome_none, Option.isSome_some, Option.getD_some,
        Bool.false_eq_true, if_false, if_true]
    · intro hneed q hq
      unfold build_resize_parameters at hq
      rw [hres] at hq
      repeat' split at hq
      all_goals first
        | exact Or.inl ⟨_, (Option.some.inj hq).symm⟩
        | exact Or.inr ⟨_, (Option.some.inj hq).symm⟩
        | simp_all [needsResize]

/-- Environment whose EXIF orientation field reads 6 (a 90-degree rotated
layout). -/
def exifRotEnv : JobEnv := { happyEnv with exifRead := ExifRead.fieldUint (some 6) }

/-- Arguments keeping EXIF and resizing by long edge 1000. -/
def longEdgeArgs : JobArgs :=
  { baseArgs with
    exif := true,
    resize := { width := none, height := none, long_edge := some 1000,
                short_edge := none } }

/-- Witness for C6: a JPEG with natural size 800x600 and orientation 6 is
treated as 600x800, and long-edge 1000 is applied to the height (the
larger corrected dimension). -/
theorem C6_resize_planner_witness :
    get_real_resolution exifRotEnv (some "image/jpeg") true = some (600, 800) ∧
    build_resize_parameters longEdgeArgs CSParameters.new exifRotEnv
        (some "image/jpeg") =
      some { CSParameters.new with height := 1000 } := by
  have h := C6_resize_planner longEdgeArgs CSParameters.new exifRotEnv
    (some "image/jpeg") 800 600 rfl
  have h1 : get_real_resolution exifRotEnv (some "image/jpeg") true =
      some (600, 800) := by
    have := h.1.1 6 rfl rfl rfl rfl
    simpa using this
  refine ⟨h1, ?_⟩
  have h2 := (h.2 600 800 h1).2.2.1 1000 rfl rfl rfl
  simpa using h2

/-! Claim C7. -/

/-- Claim C7: the resolver builds the output file name as
stem + suffix + ("." + extension when the extension is non-empty); with
keepStructure = false the output path is outputRoot/fileName and
resolution succeeds whatever the base directory (given the directory
creation succeeds); with keepStructure = true resolution fails when the
canonical parent does not have the base directory as a prefix; and on the
spec's concrete vectors it returns /output/folder/test_s.jpg,
/output/test_s.jpg, /output/test_s, and succeeds for an input outside the
base when keepStructure = false. -/
theorem C7_path_resolver :
    (∀ (env : JobEnv) (od input base : FsPath) (sfx : String),
       env.createDirAllOk od = true →
       (compute_output_full_path env od input base false sfx).1 =
         some (od ++ [(pathFileStem input).getD "" ++ sfx ++
           (if (pathExtension input).getD "" ≠ "" then
              "." ++ (pathExtension input).getD "" else "")])) ∧
    (∀ (env : JobEnv) (od input base rawPar canon : FsPath) (sfx : String),
       pathParent input = some rawPar →
       env.canonicalize rawPar = some canon →
       base.isPrefixOf canon = false →
       (compute_output_full_path env od input base true sfx).1 = none) ∧
    (compute_output_full_path happyEnv ["output"] ["base", "folder", "test.jpg"]
        ["base"] true "_s").1 = some ["output", "folder", "test_s.jpg"] ∧
    (compute_output_full_path happyEnv ["output"] ["base", "folder", "test.jpg"]
        ["base"] false "_s").1 = some ["output", "test_s.jpg"] ∧
    (compute_output_full_path happyEnv ["output"] ["base", "folder", "test"]
        ["base"] false "_s").1 = some ["output", "test_s"] ∧
    (compute_output_full_path happyEnv ["output"]
        ["different_base", "folder", "test.jpg"] ["base"] false "_s").1 =
      some ["output", "test_s.jpg"] := by
  refine ⟨?_, ?_, by decide, by decide, by decide, by decide⟩
  · intro env od input base sfx hok
    simp [compute_output_full_path, hok]
  · intro env od input base rawPar canon sfx hpar hcanon hpf
    simp [compute_output_full_path, hpar, hcanon, hpf]

/-- Witness for C7's universally quantified parts: keepStructure = false
succeeds with base unrelated to the input, and keepStructure = true fails
when the canonical parent is outside the base. -/
theorem C7_path_resolver_witness :
    (compute_output_full_path happyEnv ["out2"] ["x", "a.png"] ["zzz"]
        false "_s").1 =
      some (["out2"] ++ [(pathFileStem ["x", "a.png"]).getD "" ++ "_s" ++
        (if (pathExtension ["x", "a.png"]).getD "" ≠ "" then
           "." ++ (pathExtension ["x", "a.png"]).getD "" else "")]) ∧
    (compute_output_full_path happyEnv ["output"] ["other", "b.jpg"] ["base"]
        true "_s").1 = none := by
  constructor
  · exact C7_path_resolver.1 happyEnv ["out2"] ["x", "a.png"] ["zzz"] "_s" rfl
  · exact C7_path_resolver.2.1 happyEnv ["output"] ["other", "b.jpg"] ["base"]
      ["other"] ["other"] "_s" rfl rfl (by decide)

/-! Claim C10. -/

/-- Claim C10: every CompressionResult with status Error carries
compressed_size 0 (its initial value), even when only a late step failed;
its original_size equals the input file's size whenever the metadata read
succeeded; and the recap totals add each result's compressed size, so an
errored job contributes 0 written bytes and its whole original size
counts as saved. -/
theorem C10_error_results_carry_zero :
    (∀ (args : JobArgs) (env : JobEnv) (input base : FsPath)
       (r : CompressionResult) (evts : List Event),
       executeJob args env input base = (some r, evts) →
       (r.status = CompressionStatus.Error → r.compressed_size = 0) ∧
       (∀ meta, env.metadata = some meta → r.original_size = meta.len)) ∧
    (∀ rs, (recapTotals rs).total_compressed_size =
       (rs.map (fun r => r.compressed_size)).sum) := by
  constructor
  · intro args env input base r evts h
    unfold executeJob at h
    repeat' split at h
    all_goals simp_all
    all_goals (try (repeat' split at h))
    all_goals (try simp_all)
    all_goals (rw [← h.1]; simp)
  · intro rs
    unfold recapTotals
    rw [foldl_recapStep_compressed]
    simp

/-- Environment in which the codec fails. -/
def codecFailEnv : JobEnv :=
  { happyEnv with compress := fun _ => Except.error "codec failure" }

/-- The result the concrete codec-failure job produces. -/
def codecFailResult : CompressionResult :=
  { original_path := "/base/img.jpg", output_path := "",
    original_size := 1000, compressed_size := 0,
    status := CompressionStatus.Error,
    message := "Error compressing file: codec failure" }

/-- Witness for C10 at a concrete errored job. -/
theorem C10_error_results_carry_zero_witness :
    codecFailResult.compressed_size = 0 ∧ codecFailResult.original_size = 1000 := by
  have h := C10_error_results_carry_zero.1 baseArgs codecFailEnv
    ["base", "img.jpg"] ["base"] codecFailResult
    [Event.createDirAll ["output"], Event.codecCall] (by decide)
  exact ⟨h.1 (by decide), h.2 { len := 1000, mtime := 100, atime := 200 } rfl⟩

end CaesiumClt
